import Mathlib

/-!
Verification of the multi-backend chat client.

The development shallowly embeds the provider adapters of
`ai_providers.py` (OpenAI, Gemini, Watson, DeepAI, Clarifai), the
command-line conversation loop of `oldcode.py`, and the reactive-page
loop of `combinedoldcode.py`.  Network backends are modelled as oracle
functions supplied as parameters; Python lookup faults (IndexError on
`messages[-1]`, KeyError on missing response fields) become `Option`
values, `none` standing for the raised fault.
-/

/-- Role of a chat message, the `"role"` field of the history dicts. -/
inductive Role where
  | user
  | assistant
deriving DecidableEq, Repr

/-- One `{"role": ..., "content": ...}` dict of the conversation history. -/
structure Message where
  role : Role
  content : String
deriving DecidableEq, Repr

/-- JSON-like values, modelling vendor response payloads and request bodies.
Objects are association lists, as Python dicts appear to these clients. -/
inductive Json where
  | null
  | str (s : String)
  | num (n : Int)
  | arr (xs : List Json)
  | obj (fields : List (String × Json))

/-- Python `d[k]` on a payload: `none` models the KeyError / TypeError fault
raised when the key is absent or the value is not a dict. -/
def Json.getField : Json → String → Option Json
  | Json.obj fields, k => fields.lookup k
  | _, _ => none

/-- Python `xs[i]` on a payload: `none` models the IndexError / TypeError
fault raised when the index is out of range or the value is not a list. -/
def Json.getIdx : Json → Nat → Option Json
  | Json.arr xs, i => xs.get? i
  | _, _ => none

/-! ## OpenAIProvider (`ai_providers.py` lines 13-24) -/

/-- The request `chat.completions.create` is called with: the fixed model
set in `OpenAIProvider.__init__`, the `messages` argument, `temperature=0`. -/
structure OpenAIRequest where
  model : String
  messages : List Message
  temperature : Int
deriving DecidableEq, Repr

/-- The single request built by `OpenAIProvider.get_completion`:
`model=self.model` (set to the constant in `__init__`), `messages=messages`,
`temperature=0`. -/
def openaiRequest (messages : List Message) : OpenAIRequest :=
  { model := "gpt-4o-mini-2024-07-18", messages := messages, temperature := 0 }

/-- `response.choices[0].message.content`, the lookup chain
`OpenAIProvider.get_completion` applies to the vendor response. -/
def openaiExtract (response : Json) : Option Json :=
  (response.getField "choices").bind fun choices =>
    (choices.getIdx 0).bind fun choice =>
      (choice.getField "message").bind fun msg =>
        msg.getField "content"

/-- `OpenAIProvider.get_completion`: one call to the backend carrying the
request, then the unguarded lookups into the response. -/
def openai_get_completion (backend : OpenAIRequest → Json)
    (messages : List Message) : Option Json :=
  openaiExtract (backend (openaiRequest messages))

/-! ## GeminiProvider (`ai_providers.py` lines 26-38) -/

/-- State of the `genai` chat session: the messages sent so far. -/
structure GeminiChat where
  sent : List String
deriving DecidableEq, Repr

/-- `self.model.start_chat()`: a fresh session with nothing sent. -/
def GeminiChat.start_chat : GeminiChat := ⟨[]⟩

/-- `chat.send_message(text)`: the session records one more sent message. -/
def GeminiChat.send_message (c : GeminiChat) (text : String) : GeminiChat :=
  ⟨c.sent ++ [text]⟩

/-- `chat.last.text` under a backend oracle mapping the messages sent so far
to the latest reply: `chat.last` is `None` when nothing was sent, and
`None.text` faults (modelled as `none`). -/
def GeminiChat.lastText (backend : List String → String) (c : GeminiChat) :
    Option String :=
  match c.sent with
  | [] => none
  | _ :: _ => some (backend c.sent)

/-- The chat session after the replay loop of `GeminiProvider.get_completion`:
for each history element, send its content iff its role is `user`. -/
def geminiChatAfter (messages : List Message) : GeminiChat :=
  messages.foldl
    (fun c m => if m.role = Role.user then c.send_message m.content else c)
    GeminiChat.start_chat

/-- The sequence of messages `GeminiProvider.get_completion` sends into the
fresh chat session, in order. -/
def geminiReplay (messages : List Message) : List String :=
  (geminiChatAfter messages).sent

/-- `GeminiProvider.get_completion`: start a fresh chat, replay, return
`chat.last.text`. -/
def gemini_get_completion (backend : List String → String)
    (messages : List Message) : Option String :=
  (geminiChatAfter messages).lastText backend

/-! ## WatsonProvider (`ai_providers.py` lines 40-61) -/

/-- Configuration held by `WatsonProvider` (credentials and URL are consumed
by the SDK client and do not shape the request logic). -/
structure WatsonProvider where
  assistant_id : String
deriving DecidableEq, Repr

/-- The Watson SDK backend: `create_session` maps the assistant id to the
session-creation response; `message` maps assistant id, session id and the
input payload to the message response. -/
structure WatsonBackend where
  create_session : String → Json
  message : String → Json → Json → Json

/-- The `input={'text': messages[-1]['content']}` payload built by
`WatsonProvider.get_completion`; `none` models the IndexError on an empty
history. -/
def watsonMessageInput (messages : List Message) : Option Json :=
  messages.getLast?.map fun m => Json.obj [("text", Json.str m.content)]

/-- `response['output']['generic'][0]['text']`, the lookup chain applied to
the Watson message response. -/
def watsonExtract (response : Json) : Option Json :=
  (response.getField "output").bind fun output =>
    (output.getField "generic").bind fun generic =>
      (generic.getIdx 0).bind fun entry =>
        entry.getField "text"

/-- `WatsonProvider.get_completion`: create a fresh server session, read
`session['session_id']`, send only the last message, extract the reply. -/
def watson_get_completion (b : WatsonBackend) (p : WatsonProvider)
    (messages : List Message) : Option Json :=
  match (b.create_session p.assistant_id).getField "session_id" with
  | none => none
  | some sid =>
    match watsonMessageInput messages with
    | none => none
    | some inp => watsonExtract (b.message p.assistant_id sid inp)

/-! ## DeepAIProvider (`ai_providers.py` lines 63-74) -/

/-- The `data={'text': messages[-1]['content']}` form field of the POST in
`DeepAIProvider.get_completion`; `none` models the IndexError on an empty
history. -/
def deepAIRequestData (messages : List Message) : Option (List (String × String)) :=
  messages.getLast?.map fun m => [("text", m.content)]

/-- `response.json()['output']`, the lookup applied to the DeepAI response. -/
def deepaiExtract (response : Json) : Option Json :=
  response.getField "output"

/-- `DeepAIProvider.get_completion`: one POST of the flat text field, then
the unguarded lookup into the response. -/
def deepai_get_completion (backend : List (String × String) → Json)
    (messages : List Message) : Option Json :=
  match deepAIRequestData messages with
  | none => none
  | some d => deepaiExtract (backend d)

/-! ## ClarifaiProvider (`ai_providers.py` lines 76-105) -/

/-- Configuration held by `ClarifaiProvider`. -/
structure ClarifaiProvider where
  user_id : String
  app_id : String
  model_id : String
deriving DecidableEq, Repr

/-- The URL built by the f-string in `ClarifaiProvider.get_completion`. -/
def clarifaiUrl (p : ClarifaiProvider) : String :=
  "https://api.clarifai.com/v2/users/" ++ p.user_id ++ "/apps/" ++ p.app_id ++
    "/models/" ++ p.model_id ++ "/outputs"

/-- The JSON envelope posted by `ClarifaiProvider.get_completion`, wrapping
only `messages[-1]['content']`; `none` models the IndexError on an empty
history. -/
def clarifaiRequestJson (messages : List Message) : Option Json :=
  messages.getLast?.map fun m =>
    Json.obj [("inputs", Json.arr [Json.obj [("data",
      Json.obj [("text", Json.obj [("raw", Json.str m.content)])])]])]

/-- `response.json()['outputs'][0]['data']['text']['raw']`, the lookup chain
applied to the Clarifai response. -/
def clarifaiExtract (response : Json) : Option Json :=
  (response.getField "outputs").bind fun outputs =>
    (outputs.getIdx 0).bind fun entry =>
      (entry.getField "data").bind fun data =>
        (data.getField "text").bind fun text =>
          text.getField "raw"

/-- `ClarifaiProvider.get_completion`: one POST of the envelope to the built
URL, then the unguarded lookups into the response. -/
def clarifai_get_completion (backend : String → Json → Json)
    (p : ClarifaiProvider) (messages : List Message) : Option Json :=
  match clarifaiRequestJson messages with
  | none => none
  | some body => clarifaiExtract (backend (clarifaiUrl p) body)

/-! ## The spec's adapter contract -/

/-- The spec contract on `get_completion` arguments: a non-empty history
whose last element has role `user`. -/
def ContractOK (h : List Message) : Prop :=
  ∃ m, h.getLast? = some m ∧ m.role = Role.user

/-! ## Command-line conversation loop (`oldcode.py` lines 60-83) -/

/-- Loop state of the spec state machine: `active` accepts a next turn,
`ended` does not. -/
inductive LoopState where
  | active
  | ended
deriving DecidableEq, Repr

/-- `prompt.lower() in ["thank you", "thanks"]`, the termination test of the
command-line loop.  `lower` stands for Python's `str.lower`: Unicode
lowercasing is standard-library code external to this repository and, like
the network backends, it is embedded as an oracle parameter rather than
re-implemented. -/
def isTermination (lower : String → String) (prompt : String) : Bool :=
  lower prompt == "thank you" || lower prompt == "thanks"

/-- A concrete lowercasing instance (ASCII case folding) used only to
exercise the loop theorems at specific inputs; on every input appearing in
a witness below it agrees with the library lowercasing. -/
def asciiLower (s : String) : String := ⟨s.data.map Char.toLower⟩

/-- One iteration of the `while True` loop of `oldcode.py`: check the
termination phrase; otherwise append the user message, call the adapter on
the whole history, on success append the assistant message, on failure keep
the history as is; either way the loop continues. -/
def cliTurn (lower : String → String)
    (adapter : List Message → Except String String)
    (history : List Message) (prompt : String) : List Message × LoopState :=
  if isTermination lower prompt then
    (history, LoopState.ended)
  else
    let h1 := history ++ [{ role := Role.user, content := prompt }]
    match adapter h1 with
    | Except.ok r => (h1 ++ [{ role := Role.assistant, content := r }], LoopState.active)
    | Except.error _ => (h1, LoopState.active)

/-! ## Reactive-page loop (`combinedoldcode.py` lines 185-228) -/

/-- The Send branch of `main()`: a falsy (empty) input is not processed;
otherwise append the user message, call the adapter on the whole history, on
success append the assistant message, on failure keep the history as is. -/
def streamlitSend (adapter : List Message → Except String String)
    (history : List Message) (user_input : String) : List Message :=
  if user_input.isEmpty then history
  else
    let h1 := history ++ [{ role := Role.user, content := user_input }]
    match adapter h1 with
    | Except.ok r => h1 ++ [{ role := Role.assistant, content := r }]
    | Except.error _ => h1

/-- The user-visible actions of the reactive page that touch the history. -/
inductive UIOp where
  | send (input : String)
  | clearChat
deriving DecidableEq, Repr

/-- Effect of one UI action on `st.session_state.conversation_history`:
Send runs `streamlitSend`; Clear Chat sets the history to `[]`. -/
def streamlitOp (adapter : List Message → Except String String)
    (history : List Message) : UIOp → List Message
  | UIOp.send input => streamlitSend adapter history input
  | UIOp.clearChat => []

/-! ## Helper lemmas -/

/-- The replay loop of the Gemini variant sends, on top of what the chat
already holds, exactly the contents of the user-role history elements. -/
theorem geminiChat_foldl_sent (msgs : List Message) (c : GeminiChat) :
    (msgs.foldl
      (fun c m => if m.role = Role.user then c.send_message m.content else c)
      c).sent
      = c.sent ++ (msgs.filter fun m => m.role = Role.user).map Message.content := by
  induction msgs generalizing c with
  | nil => simp
  | cons m ms ih =>
    by_cases hm : m.role = Role.user
    · rw [List.foldl_cons, if_pos hm, ih]
      simp [GeminiChat.send_message, hm]
    · rw [List.foldl_cons, if_neg hm, ih]
      simp [hm]

/-- Characterization of the Gemini replay: the user-role contents, in order. -/
theorem geminiReplay_eq (messages : List Message) :
    geminiReplay messages
      = (messages.filter fun m => m.role = Role.user).map Message.content := by
  simpa [geminiReplay, geminiChatAfter, GeminiChat.start_chat]
    using geminiChat_foldl_sent messages GeminiChat.start_chat

/-! ## Claims -/

/-- Claim C1: the Gemini variant replays into a fresh chat session exactly
the user-role messages of the history, in history order, and no
assistant-role messages; in particular for the history
user "a", assistant "b", user "c" exactly "a" then "c" are sent. -/
theorem gemini_replays_user_turns :
    (∀ messages : List Message,
      geminiReplay messages
        = (messages.filter fun m => m.role = Role.user).map Message.content) ∧
    geminiReplay [{ role := Role.user, content := "a" },
                  { role := Role.assistant, content := "b" },
                  { role := Role.user, content := "c" }] = ["a", "c"] :=
  ⟨geminiReplay_eq, rfl⟩

/-- Claim C9: the OpenAI variant issues a single request carrying the entire
history unchanged with temperature 0: the request built holds the history
verbatim and temperature 0, and the result depends on the backend only
through its value at that one request. -/
theorem openai_full_history_temperature_zero (messages : List Message)
    (b b' : OpenAIRequest → Json)
    (hbb : b (openaiRequest messages) = b' (openaiRequest messages)) :
    (openaiRequest messages).messages = messages ∧
    (openaiRequest messages).temperature = 0 ∧
    openai_get_completion b messages = openai_get_completion b' messages :=
  ⟨rfl, rfl, by simp [openai_get_completion, hbb]⟩

/-- Witness instantiating the OpenAI full-history theorem at a concrete
history and backend. -/
theorem openai_full_history_temperature_zero_witness :
    (openaiRequest [{ role := Role.user, content := "hi" }]).messages
        = [{ role := Role.user, content := "hi" }] ∧
    (openaiRequest [{ role := Role.user, content := "hi" }]).temperature = 0 ∧
    openai_get_completion (fun _ => Json.null) [{ role := Role.user, content := "hi" }]
      = openai_get_completion (fun _ => Json.null) [{ role := Role.user, content := "hi" }] :=
  openai_full_history_temperature_zero [{ role := Role.user, content := "hi" }]
    (fun _ => Json.null) (fun _ => Json.null) rfl

/-- Claim C8: in the OpenAI, Watson, DeepAI and Clarifai variants a vendor
response missing the expected fields (an empty object) makes the response
lookups fault; the Gemini variant never inspects a response payload: for
every backend it succeeds whenever at least one message was replayed. -/
theorem malformed_response_four_of_five :
    openaiExtract (Json.obj []) = none ∧
    watsonExtract (Json.obj []) = none ∧
    deepaiExtract (Json.obj []) = none ∧
    clarifaiExtract (Json.obj []) = none ∧
    (∀ (backend : List String → String) (messages : List Message),
      geminiReplay messages ≠ [] →
      gemini_get_completion backend messages = some (backend (geminiReplay messages))) := by
  refine ⟨rfl, rfl, rfl, rfl, ?_⟩
  intro backend messages hne
  unfold gemini_get_completion GeminiChat.lastText
  cases hgr : (geminiChatAfter messages).sent with
  | nil => exact absurd hgr hne
  | cons x xs => simp [geminiReplay, hgr]

/-- Witness instantiating the malformed-response theorem on the Gemini
variant at a one-message history. -/
theorem malformed_response_four_of_five_witness :
    gemini_get_completion (fun _ => "canned") [{ role := Role.user, content := "q" }]
      = some "canned" :=
  malformed_response_four_of_five.2.2.2.2 (fun _ => "canned")
    [{ role := Role.user, content := "q" }] (by decide)

/-- Claim C2: the Watson, DeepAI and Clarifai variants send only the content
of the last history element: two non-empty histories with equal last
elements yield the same request and, against the same backend, the same
result, in all three variants. -/
theorem last_message_only_variants (h1 h2 : List Message) (m : Message)
    (hl1 : h1.getLast? = some m) (hl2 : h2.getLast? = some m) :
    watsonMessageInput h1 = watsonMessageInput h2 ∧
    deepAIRequestData h1 = deepAIRequestData h2 ∧
    clarifaiRequestJson h1 = clarifaiRequestJson h2 ∧
    (∀ (b : WatsonBackend) (p : WatsonProvider),
      watson_get_completion b p h1 = watson_get_completion b p h2) ∧
    (∀ b : List (String × String) → Json,
      deepai_get_completion b h1 = deepai_get_completion b h2) ∧
    (∀ (b : String → Json → Json) (p : ClarifaiProvider),
      clarifai_get_completion b p h1 = clarifai_get_completion b p h2) := by
  have hw : watsonMessageInput h1 = watsonMessageInput h2 := by
    simp [watsonMessageInput, hl1, hl2]
  have hd : deepAIRequestData h1 = deepAIRequestData h2 := by
    simp [deepAIRequestData, hl1, hl2]
  have hcl : clarifaiRequestJson h1 = clarifaiRequestJson h2 := by
    simp [clarifaiRequestJson, hl1, hl2]
  exact ⟨hw, hd, hcl,
    fun b p => by simp [watson_get_completion, hw],
    fun b => by simp [deepai_get_completion, hd],
    fun b p => by simp [clarifai_get_completion, hcl]⟩

/-- Witness: two different histories sharing the last element give the
DeepAI variant the same result. -/
theorem last_message_only_variants_witness :
    deepai_get_completion (fun _ => Json.obj [("output", Json.str "ok")])
        [{ role := Role.user, content := "x" }, { role := Role.user, content := "c" }]
      = deepai_get_completion (fun _ => Json.obj [("output", Json.str "ok")])
        [{ role := Role.assistant, content := "y" }, { role := Role.user, content := "c" }] :=
  (last_message_only_variants
      [{ role := Role.user, content := "x" }, { role := Role.user, content := "c" }]
      [{ role := Role.assistant, content := "y" }, { role := Role.user, content := "c" }]
      { role := Role.user, content := "c" } rfl rfl).2.2.2.2.1
      (fun _ => Json.obj [("output", Json.str "ok")])

/-- Claim C6: under the contract precondition (non-empty history whose last
element has role user) no variant faults on access to the history itself:
the last-element accesses of the Watson, DeepAI and Clarifai variants are in
range, each of these variants reduces to extraction of the backend response
to the last message, and the Gemini variant succeeds for every backend. -/
theorem contract_protects_history_access (h : List Message) (m : Message)
    (hl : h.getLast? = some m) (hrole : m.role = Role.user) :
    (watsonMessageInput h).isSome = true ∧
    (deepAIRequestData h).isSome = true ∧
    (clarifaiRequestJson h).isSome = true ∧
    (∀ b : List (String × String) → Json,
      deepai_get_completion b h = deepaiExtract (b [("text", m.content)])) ∧
    (∀ (b : String → Json → Json) (p : ClarifaiProvider),
      clarifai_get_completion b p h
        = clarifaiExtract (b (clarifaiUrl p)
            (Json.obj [("inputs", Json.arr [Json.obj [("data",
              Json.obj [("text", Json.obj [("raw", Json.str m.content)])])]])]))) ∧
    (∀ (b : WatsonBackend) (p : WatsonProvider) (sid : Json),
      (b.create_session p.assistant_id).getField "session_id" = some sid →
      watson_get_completion b p h
        = watsonExtract (b.message p.assistant_id sid
            (Json.obj [("text", Json.str m.content)]))) ∧
    (∀ backend : List String → String,
      (gemini_get_completion backend h).isSome = true) := by
  refine ⟨?_, ?_, ?_, ?_, ?_, ?_, ?_⟩
  · simp [watsonMessageInput, hl]
  · simp [deepAIRequestData, hl]
  · simp [clarifaiRequestJson, hl]
  · intro b
    simp [deepai_get_completion, deepAIRequestData, hl]
  · intro b p
    simp [clarifai_get_completion, clarifaiRequestJson, hl]
  · intro b p sid hsid
    simp [watson_get_completion, watsonMessageInput, hl, hsid]
  · intro backend
    have hmem : m ∈ h := by
      rcases List.mem_getLast?_eq_getLast (l := h) (x := m)
          (Option.mem_def.mpr hl) with ⟨hne, hx⟩
      exact hx ▸ List.getLast_mem hne
    have hfil : m ∈ h.filter (fun x => x.role = Role.user) :=
      List.mem_filter.mpr ⟨hmem, by simp [hrole]⟩
    have hne : geminiReplay h ≠ [] := by
      rw [geminiReplay_eq]
      exact List.ne_nil_of_mem (List.mem_map_of_mem Message.content hfil)
    unfold gemini_get_completion GeminiChat.lastText
    cases hgr : (geminiChatAfter h).sent with
    | nil => exact absurd hgr hne
    | cons x xs => simp

/-- Witness instantiating the contract theorem at a one-message history. -/
theorem contract_protects_history_access_witness :
    (deepAIRequestData [{ role := Role.user, content := "q" }]).isSome = true :=
  (contract_protects_history_access [{ role := Role.user, content := "q" }]
    { role := Role.user, content := "q" } rfl rfl).2.1

/-- Claim C3: a successful turn extends the history by exactly two messages,
first the user message then the assistant message, in both front-ends, and
the CLI loop stays active; nothing else in the history changes. -/
theorem successful_turn_appends_two (lower : String → String)
    (h : List Message) (prompt : String)
    (a : List Message → Except String String) (r : String)
    (hterm : isTermination lower prompt = false)
    (hok : a (h ++ [{ role := Role.user, content := prompt }]) = Except.ok r) :
    cliTurn lower a h prompt
      = (h ++ [{ role := Role.user, content := prompt },
               { role := Role.assistant, content := r }], LoopState.active) ∧
    (prompt.isEmpty = false →
      streamlitSend a h prompt
        = h ++ [{ role := Role.user, content := prompt },
                { role := Role.assistant, content := r }]) := by
  constructor
  · simp [cliTurn, hterm, hok]
  · intro hne
    simp [streamlitSend, hne, hok]

/-- Witness: a successful turn at a concrete prompt and canned adapter. -/
theorem successful_turn_appends_two_witness :
    cliTurn asciiLower (fun _ => Except.ok "r") [] "hi"
      = ([{ role := Role.user, content := "hi" },
          { role := Role.assistant, content := "r" }], LoopState.active) ∧
    streamlitSend (fun _ => Except.ok "r") [] "hi"
      = [{ role := Role.user, content := "hi" },
         { role := Role.assistant, content := "r" }] :=
  ⟨(successful_turn_appends_two asciiLower [] "hi" (fun _ => Except.ok "r") "r" rfl rfl).1,
   (successful_turn_appends_two asciiLower [] "hi" (fun _ => Except.ok "r") "r" rfl rfl).2 rfl⟩

/-- Claim C4: a turn on which the adapter fails extends the history by
exactly the user message, with no assistant message, in both front-ends, and
the CLI loop remains active. -/
theorem failed_turn_appends_user_only (lower : String → String)
    (h : List Message) (prompt : String)
    (a : List Message → Except String String) (e : String)
    (hterm : isTermination lower prompt = false)
    (herr : a (h ++ [{ role := Role.user, content := prompt }]) = Except.error e) :
    cliTurn lower a h prompt
      = (h ++ [{ role := Role.user, content := prompt }], LoopState.active) ∧
    (prompt.isEmpty = false →
      streamlitSend a h prompt
        = h ++ [{ role := Role.user, content := prompt }]) := by
  constructor
  · simp [cliTurn, hterm, herr]
  · intro hne
    simp [streamlitSend, hne, herr]

/-- Witness: a failed turn at a concrete prompt and always-failing adapter. -/
theorem failed_turn_appends_user_only_witness :
    cliTurn asciiLower (fun _ => Except.error "boom") [] "hi"
      = ([{ role := Role.user, content := "hi" }], LoopState.active) ∧
    streamlitSend (fun _ => Except.error "boom") [] "hi"
      = [{ role := Role.user, content := "hi" }] :=
  ⟨(failed_turn_appends_user_only asciiLower [] "hi"
      (fun _ => Except.error "boom") "boom" rfl rfl).1,
   (failed_turn_appends_user_only asciiLower [] "hi"
      (fun _ => Except.error "boom") "boom" rfl rfl).2 rfl⟩

/-- Claim C5: an input whose lowercased form (under the library lowercasing,
embedded as the oracle `lower`) is a termination phrase ends the CLI loop
with the history unchanged and without invoking the adapter (the result
does not depend on the adapter); any other input leaves the loop active on
that turn. -/
theorem termination_phrase_ends_loop (lower : String → String)
    (h : List Message) (prompt : String) :
    ((lower prompt = "thank you" ∨ lower prompt = "thanks") →
      ∀ a a' : List Message → Except String String,
        cliTurn lower a h prompt = (h, LoopState.ended) ∧
        cliTurn lower a h prompt = cliTurn lower a' h prompt) ∧
    (¬ (lower prompt = "thank you" ∨ lower prompt = "thanks") →
      ∀ a : List Message → Except String String,
        (cliTurn lower a h prompt).2 = LoopState.active) := by
  constructor
  · intro hp a a'
    have ht : isTermination lower prompt = true := by
      rcases hp with hp | hp <;> simp [isTermination, hp]
    refine ⟨by simp [cliTurn, ht], ?_⟩
    simp [cliTurn, ht]
  · intro hp a
    have h1 : lower prompt ≠ "thank you" := fun hc => hp (Or.inl hc)
    have h2 : lower prompt ≠ "thanks" := fun hc => hp (Or.inr hc)
    have ht : isTermination lower prompt = false := by
      simp [isTermination, h1, h2]
    cases hres : a (h ++ [{ role := Role.user, content := prompt }]) with
    | ok r => simp [cliTurn, ht, hres]
    | error e => simp [cliTurn, ht, hres]

/-- Witness: "Thank You" ends the loop with nothing appended; "hello" does
not end it (the concrete lowercasing agrees with the library one on both). -/
theorem termination_phrase_ends_loop_witness :
    cliTurn asciiLower (fun _ => Except.ok "canned") [] "Thank You"
      = ([], LoopState.ended) ∧
    (cliTurn asciiLower (fun _ => Except.ok "canned") [] "hello").2
      = LoopState.active :=
  ⟨((termination_phrase_ends_loop asciiLower [] "Thank You").1 (Or.inl (by decide))
      (fun _ => Except.ok "canned") (fun _ => Except.error "x")).1,
   (termination_phrase_ends_loop asciiLower [] "hello").2 (by decide)
      (fun _ => Except.ok "canned")⟩

/-- Claim C10: every input whose lowercase form (under the library
lowercasing, embedded as the oracle `lower`) is not a termination phrase is
appended verbatim as a user message and handed to the adapter unchanged:
the turn's outcome depends on the adapter only through its value at the
extended history, and no input is rejected or normalized.  The empty and
whitespace-only strings are among these inputs: the library lowercasing
maps them to themselves, and any `lower` doing so classifies them as
non-terminating. -/
theorem nonterminating_input_sent_verbatim (lower : String → String)
    (h : List Message) (prompt : String)
    (hterm : isTermination lower prompt = false) :
    (∀ (a : List Message → Except String String) (r : String),
      a (h ++ [{ role := Role.user, content := prompt }]) = Except.ok r →
      cliTurn lower a h prompt
        = (h ++ [{ role := Role.user, content := prompt },
                 { role := Role.assistant, content := r }], LoopState.active)) ∧
    (∀ (a : List Message → Except String String) (e : String),
      a (h ++ [{ role := Role.user, content := prompt }]) = Except.error e →
      cliTurn lower a h prompt
        = (h ++ [{ role := Role.user, content := prompt }], LoopState.active)) ∧
    (∀ a a' : List Message → Except String String,
      a (h ++ [{ role := Role.user, content := prompt }])
          = a' (h ++ [{ role := Role.user, content := prompt }]) →
      cliTurn lower a h prompt = cliTurn lower a' h prompt) ∧
    (lower "" = "" → isTermination lower "" = false) ∧
    (lower "   " = "   " → isTermination lower "   " = false) := by
  refine ⟨?_, ?_, ?_, ?_, ?_⟩
  · intro a r hok
    simp [cliTurn, hterm, hok]
  · intro a e herr
    simp [cliTurn, hterm, herr]
  · intro a a' haa
    simp [cliTurn, hterm, haa]
  · intro hle
    simp [isTermination, hle]
  · intro hlw
    simp [isTermination, hlw]

/-- Witness: the empty input is sent as-is and the canned reply recorded. -/
theorem nonterminating_input_sent_verbatim_witness :
    cliTurn asciiLower (fun _ => Except.ok "canned") [] ""
      = ([{ role := Role.user, content := "" },
          { role := Role.assistant, content := "canned" }], LoopState.active) :=
  (nonterminating_input_sent_verbatim asciiLower [] "" rfl).1
    (fun _ => Except.ok "canned") "canned" rfl

/-- Counterexample to claim C7 as stated: the Clear Chat UI action of the
reactive page empties a non-empty history, so the history before it is not a
preserved initial segment of the history after it. -/
theorem history_monotonic_counterexample :
    streamlitOp (fun _ => Except.ok "canned")
        [{ role := Role.user, content := "a" }] UIOp.clearChat = [] ∧
    ¬ ∃ t, streamlitOp (fun _ => Except.ok "canned")
        [{ role := Role.user, content := "a" }] UIOp.clearChat
          = { role := Role.user, content := "a" } :: t := by
  refine ⟨rfl, ?_⟩
  rintro ⟨t, ht⟩
  simp [streamlitOp] at ht

/-- Claim C7 as amended: every CLI turn and every Send action of the
reactive page extends the history (the history before is an initial segment
of the history after, nothing removed or overwritten); the Clear Chat UI
action instead resets the history to empty. -/
theorem history_monotonic_amended :
    (∀ (lower : String → String) (a : List Message → Except String String)
        (h : List Message) (prompt : String),
      ∃ t, (cliTurn lower a h prompt).1 = h ++ t) ∧
    (∀ (a : List Message → Except String String) (h : List Message) (input : String),
      ∃ t, streamlitSend a h input = h ++ t) ∧
    (∀ (a : List Message → Except String String) (h : List Message),
      streamlitOp a h UIOp.clearChat = []) := by
  refine ⟨?_, ?_, fun a h => rfl⟩
  · intro lower a h prompt
    by_cases ht : isTermination lower prompt = true
    · exact ⟨[], by simp [cliTurn, ht]⟩
    · have ht' : isTermination lower prompt = false := by simpa using ht
      cases hres : a (h ++ [{ role := Role.user, content := prompt }]) with
      | ok r =>
        exact ⟨[{ role := Role.user, content := prompt },
                { role := Role.assistant, content := r }],
          by simp [cliTurn, ht', hres]⟩
      | error e =>
        exact ⟨[{ role := Role.user, content := prompt }],
          by simp [cliTurn, ht', hres]⟩
  · intro a h input
    by_cases hi : input.isEmpty = true
    · exact ⟨[], by simp [streamlitSend, hi]⟩
    · have hi' : input.isEmpty = false := by simpa using hi
      cases hres : a (h ++ [{ role := Role.user, content := input }]) with
      | ok r =>
        exact ⟨[{ role := Role.user, content := input },
                { role := Role.assistant, content := r }],
          by simp [streamlitSend, hi', hres]⟩
      | error e =>
        exact ⟨[{ role := Role.user, content := input }],
          by simp [streamlitSend, hi', hres]⟩
